import Mathlib

/-!
Verification of the autobiography-generation backend.

Shallow embedding of the core pipeline code:
* `src/services/audio_transcriber.py` — chunk splitting and ordered
  concatenation of per-chunk transcriptions (`AudioTranscriber`);
* `src/autobiography_agents/orchestrator.py` — the LangGraph pipeline
  (analysis node, parallel chapter fan-out, integration node, routing).

External LLM / speech-to-text calls are modelled as oracle functions whose
outcomes are `Except String α` values: `Except.error e` models a Python
exception whose `str()` is `e`.  Python truthiness of `None` / strings is
modelled explicitly where the source relies on it.
-/

namespace Autobio

/-! ## Audio chunk splitter (`AudioTranscriber._split_audio`) -/

/-- `AudioTranscriber.MAX_CHUNK_DURATION_MS = 10 * 60 * 1000`. -/
def MAX_CHUNK_DURATION_MS : Nat := 10 * 60 * 1000

/-- `AudioTranscriber.OVERLAP_MS = 5000`. -/
def OVERLAP_MS : Nat := 5000

/-- The `while start_ms < duration_ms` loop of `_split_audio`, embedded with a
fuel argument that merely bounds the number of iterations (each iteration of
the source loop either terminates or advances `start_ms` by
`MAX_CHUNK_DURATION_MS - OVERLAP_MS = 595000`, so `durationMs` iterations are
always far more than enough).  A chunk `(s, e)` models the Python slice
`audio[s:e]`, i.e. the half-open interval `[s, e)` of milliseconds. -/
def splitAudioLoop : Nat → Nat → Nat → List (Nat × Nat)
  | 0, _, _ => []
  | fuel + 1, durationMs, startMs =>
    if startMs < durationMs then
      let endMs := min (startMs + MAX_CHUNK_DURATION_MS) durationMs
      let nextStart := endMs - OVERLAP_MS
      if durationMs - nextStart < OVERLAP_MS * 2 then
        [(startMs, endMs)]
      else
        (startMs, endMs) :: splitAudioLoop fuel durationMs nextStart
    else
      []

/-- `AudioTranscriber._split_audio`: returns the list of chunk boundaries.
The early-return branch for `duration_ms <= MAX_CHUNK_DURATION_MS` returns the
whole audio as a single chunk. -/
def splitAudio (durationMs : Nat) : List (Nat × Nat) :=
  if durationMs ≤ MAX_CHUNK_DURATION_MS then [(0, durationMs)]
  else splitAudioLoop durationMs durationMs 0

/-! ## Pydantic data model (`orchestrator.py`, `life_stage_agents.py`) -/

/-- `LifeStorySection` (life_stage_agents.py): structured output of one
period-extraction agent. -/
structure LifeStorySection where
  period : String
  age_range : String
  title : String
  content : String
  key_events : List String
  emotions : List String
  lessons_learned : Option String
  has_content : Bool
deriving DecidableEq

/-- `AnalysisResult` (orchestrator.py): structured output of the analyzer. -/
structure AnalysisResult where
  author_name : String
  birth_year : Option Int
  current_age : Option Int
  summary : String
  detected_periods : List String
  main_themes : List String
deriving DecidableEq

/-- `Chapter` (orchestrator.py). -/
structure Chapter where
  period : String
  title : String
  content : String
deriving DecidableEq

/-- `AutobiographyResult` (orchestrator.py): structured output of the
integrator. -/
structure AutobiographyResult where
  title : String
  author_name : String
  prologue : String
  chapters : List Chapter
  epilogue : String
  key_themes : List String
  life_lessons : List String
deriving DecidableEq

/-- `AutobiographyState` (orchestrator.py): the TypedDict threaded through the
LangGraph nodes. -/
structure AutobiographyState where
  transcript : String
  analysis : Option AnalysisResult
  childhood_chapter : Option LifeStorySection
  youth_chapter : Option LifeStorySection
  middle_age_chapter : Option LifeStorySection
  mature_chapter : Option LifeStorySection
  elderly_chapter : Option LifeStorySection
  final_autobiography : Option AutobiographyResult
  current_step : String
  error : Option String
deriving DecidableEq

/-! ## Python-truthiness helpers -/

/-- Python truthiness of an `Optional[str]` value: `None` and the empty string
are falsy, every other string is truthy (used by `should_continue` and by the
final `if final_state.get("error")` check). -/
def truthy : Option String → Bool
  | none => false
  | some s => !(s == "")

/-- Python `x or default` for an `Optional[str]` value `x`
(`chapter.lessons_learned or '없음'`): falsy values (`None`, `""`) are
replaced by the default. -/
def pyOrStr (o : Option String) (d : String) : String :=
  match o with
  | none => d
  | some s => if s == "" then d else s

/-- Python `f"{x or default}"` for an `Optional[int]` value `x`
(`analysis.birth_year or '불명'`): falsy values (`None`, `0`) render as the
default, others via `str`. -/
def pyOrInt (o : Option Int) (d : String) : String :=
  match o with
  | none => d
  | some n => if n == 0 then d else toString n

/-! ## Fan-out gather model

`asyncio.gather` collects each task's outcome into the slot matching the
task's position in the argument list, no matter in which order the tasks
complete.  `gather_run tasks order` models this: `order` is the sequence of
task indices in completion order; each completion event stores that task's
result in its own slot of a result array initialised to `none`. -/

/-- One completion event of a gather: task `i` finished, so its result is
stored in slot `i` of the accumulator (an out-of-range index is a no-op and
never occurs in a real completion sequence). -/
def gather_step {α : Type} (tasks : List α) (acc : List (Option α))
    (i : Nat) : List (Option α) :=
  match tasks[i]? with
  | some v => acc.set i (some v)
  | none => acc

/-- Run the completion events of a gather: each index `i` in `order` (the
completion order) stores `tasks[i]` into slot `i`. -/
def gather_run {α : Type} (tasks : List α) (order : List Nat) : List (Option α) :=
  order.foldl (gather_step tasks) (List.replicate tasks.length none)

/-! ## LangGraph node functions (`orchestrator.py`) -/

/-- `analyze_node`: invokes the analyzer chain on `state["transcript"]`; on
success stores the analysis and advances to `"chapters"`, on exception stores
`str(e)` in `error` and sets `current_step = "error"`. -/
def analyze_node (llm : String → Except String AnalysisResult)
    (s : AutobiographyState) : AutobiographyState :=
  match llm s.transcript with
  | Except.ok analysis =>
    { s with analysis := some analysis, current_step := "chapters" }
  | Except.error e =>
    { s with error := some e, current_step := "error" }

/-- The `chapter_names` list of `write_chapters_node`. -/
def chapter_names : List String :=
  ["childhood", "youth", "middle_age", "mature", "elderly"]

/-- One assignment `chapters[f"{name}_chapter"] = ...` merged into the state
dict by `{**state, **chapters, ...}`: keyed by the slot name string. -/
def set_state_field (s : AutobiographyState) (key : String)
    (v : Option LifeStorySection) : AutobiographyState :=
  if key == "childhood_chapter" then { s with childhood_chapter := v }
  else if key == "youth_chapter" then { s with youth_chapter := v }
  else if key == "middle_age_chapter" then { s with middle_age_chapter := v }
  else if key == "mature_chapter" then { s with mature_chapter := v }
  else if key == "elderly_chapter" then { s with elderly_chapter := v }
  else s

/-- `write_chapters_node`: `setup` models the five `create_*_agent()` calls
(the part of the `try` body that runs before `asyncio.gather`); `results` is
the positional outcome list of `asyncio.gather(..., return_exceptions=True)`
— `Except.error e` models an exception object in the results list, which the
per-slot loop converts to `None`, while successes are stored unchanged.  The
merged state advances to `"integrate"`. -/
def write_chapters_node (setup : Except String Unit)
    (results : List (Except String LifeStorySection))
    (s : AutobiographyState) : AutobiographyState :=
  match setup with
  | Except.error e => { s with error := some e, current_step := "error" }
  | Except.ok _ =>
    let updates := (chapter_names.zip results).map
      (fun nr => (nr.1 ++ "_chapter", nr.2.toOption))
    let merged := updates.foldl (fun acc kv => set_state_field acc kv.1 kv.2) s
    { merged with current_step := "integrate" }

/-! ## Integration input (`integrate_node`, lines 224-270) -/

/-- The placeholder entry appended for a period slot that is `None` or has
`has_content == False`:
`f"\n## {period} ({age_range})\n해당 시기에 대한 정보가 부족합니다.\n"`. -/
def placeholder_entry (period age_range : String) : String :=
  "\n## " ++ period ++ " (" ++ age_range ++ ")\n해당 시기에 대한 정보가 부족합니다.\n"

/-- The full entry appended for a period slot with content (the triple-quoted
f-string of the loop body). -/
def full_entry (period age_range : String) (c : LifeStorySection) : String :=
  "\n## " ++ period ++ " (" ++ age_range ++ ")\n제목: " ++ c.title ++
  "\n내용: " ++ c.content ++
  "\n주요 사건: " ++ String.intercalate ", " c.key_events ++
  "\n감정: " ++ String.intercalate ", " c.emotions ++
  "\n교훈: " ++ pyOrStr c.lessons_learned "없음" ++ "\n"

/-- The body of the `for period, age_range, chapter in chapter_data` loop:
`if chapter and chapter.has_content` appends the full entry, otherwise the
placeholder (a `None` chapter is falsy; a present object is always truthy). -/
def chapter_entry (period age_range : String)
    (c : Option LifeStorySection) : String :=
  match c with
  | some ch =>
    if ch.has_content then full_entry period age_range ch
    else placeholder_entry period age_range
  | none => placeholder_entry period age_range

/-- The `chapter_data` list of `integrate_node`: the five period slots with
their display names and age ranges, in the source order. -/
def chapter_data (s : AutobiographyState) :
    List (String × String × Option LifeStorySection) :=
  [("유년기", "0-12세", s.childhood_chapter),
   ("청년기", "13-29세", s.youth_chapter),
   ("중년기", "30-49세", s.middle_age_chapter),
   ("장년기", "50-64세", s.mature_chapter),
   ("노년기", "65세 이상", s.elderly_chapter)]

/-- The `chapters_info` list accumulated by the loop of `integrate_node`. -/
def chapters_info (s : AutobiographyState) : List String :=
  (chapter_data s).map (fun x => chapter_entry x.1 x.2.1 x.2.2)

/-- The `integration_input` f-string of `integrate_node`. -/
def integration_input (analysis : AnalysisResult)
    (s : AutobiographyState) : String :=
  "\n다음 내용을 바탕으로 완성된 자서전을 작성해주세요.\n\n## 저자 정보\n이름: " ++
  analysis.author_name ++
  "\n출생년도: " ++ pyOrInt analysis.birth_year "불명" ++
  "\n현재 나이: " ++ pyOrInt analysis.current_age "불명" ++
  "\n\n## 일대기 요약\n" ++ analysis.summary ++
  "\n\n## 감지된 인생 시기\n" ++ String.intercalate ", " analysis.detected_periods ++
  "\n\n## 주요 테마\n" ++ String.intercalate ", " analysis.main_themes ++
  "\n\n---\n" ++ String.join (chapters_info s) ++
  "\n---\n\n위 내용을 하나의 완성된 자서전으로 통합해주세요.\n제목, 프롤로그, 각 챕터(period, title, content를 포함한 dict), 에필로그를 포함하여 완성도 높은 자서전을 작성하세요.\n"

/-- The `str()` of the `AttributeError` raised inside `integrate_node` when
`state["analysis"]` is `None` and the f-string evaluates
`analysis.author_name` (message paraphrased without quote characters). -/
def noneAnalysisMsg : String :=
  "AttributeError: NoneType object has no attribute author_name"

/-- `integrate_node`: builds `integration_input` and invokes the integrator
chain on it; on success stores the result and advances to `"complete"`; an
exception (including the `AttributeError` when `analysis` is `None`) is
caught and stored in `error` with `current_step = "error"`. -/
def integrate_node (llm : String → Except String AutobiographyResult)
    (s : AutobiographyState) : AutobiographyState :=
  match s.analysis with
  | none => { s with error := some noneAnalysisMsg, current_step := "error" }
  | some analysis =>
    match llm (integration_input analysis s) with
    | Except.ok result =>
      { s with final_autobiography := some result, current_step := "complete" }
    | Except.error e =>
      { s with error := some e, current_step := "error" }

/-! ## The compiled graph (`create_orchestrator`) and driver
(`run_autobiography_generation`) -/

/-- The nodes of the compiled LangGraph, plus the `END` sentinel
(`graphEnd`). -/
inductive GNode where
  | analyze
  | write_chapters
  | integrate
  | graphEnd
deriving DecidableEq

/-- `should_continue`: `"error"` when `state.get("error")` is truthy,
otherwise `state["current_step"]`. -/
def should_continue (s : AutobiographyState) : String :=
  if truthy s.error then "error" else s.current_step

/-- The conditional-edge map attached to `"analyze"`:
`{"chapters": "write_chapters", "error": END}`; an unmapped routing key is a
LangGraph runtime error, modelled as `none`. -/
def route_after_analyze (s : AutobiographyState) : Option GNode :=
  let d := should_continue s
  if d == "chapters" then some GNode.write_chapters
  else if d == "error" then some GNode.graphEnd
  else none

/-- The conditional-edge map attached to `"write_chapters"`:
`{"integrate": "integrate", "error": END}`. -/
def route_after_chapters (s : AutobiographyState) : Option GNode :=
  let d := should_continue s
  if d == "integrate" then some GNode.integrate
  else if d == "error" then some GNode.graphEnd
  else none

/-- The conditional-edge map attached to `"integrate"`:
`{"complete": END, "error": END}`. -/
def route_after_integrate (s : AutobiographyState) : Option GNode :=
  let d := should_continue s
  if d == "complete" then some GNode.graphEnd
  else if d == "error" then some GNode.graphEnd
  else none

/-- The oracle for one pipeline run: the outcome of every remote call as a
function of the prompt text the code passes to it, plus the outcome of the
five `create_*_agent()` constructor calls of `write_chapters_node`
(`agentSetup`). -/
structure LLMOracle where
  analyzeLLM : String → Except String AnalysisResult
  agentSetup : Except String Unit
  childhoodLLM : String → Except String LifeStorySection
  youthLLM : String → Except String LifeStorySection
  middleAgeLLM : String → Except String LifeStorySection
  matureLLM : String → Except String LifeStorySection
  elderlyLLM : String → Except String LifeStorySection
  integrateLLM : String → Except String AutobiographyResult

/-- The positional results list of the `asyncio.gather` in
`write_chapters_node`: the five agents invoked on the same transcript, in
source order (childhood, youth, middle_age, mature, elderly). -/
def gather_chapter_results (o : LLMOracle) (transcript : String) :
    List (Except String LifeStorySection) :=
  [o.childhoodLLM transcript, o.youthLLM transcript,
   o.middleAgeLLM transcript, o.matureLLM transcript,
   o.elderlyLLM transcript]

/-- Graph execution from the `"integrate"` node: run the node, then follow
its conditional edge (which can only reach `END`).  The first component is
the list of node functions executed, in execution order. -/
def exec_integrate (o : LLMOracle) (s : AutobiographyState) :
    List GNode × Option AutobiographyState :=
  let s' := integrate_node o.integrateLLM s
  match route_after_integrate s' with
  | some GNode.graphEnd => ([GNode.integrate], some s')
  | _ => ([GNode.integrate], none)

/-- Graph execution from the `"write_chapters"` node. -/
def exec_chapters (o : LLMOracle) (s : AutobiographyState) :
    List GNode × Option AutobiographyState :=
  let s' := write_chapters_node o.agentSetup
    (gather_chapter_results o s.transcript) s
  match route_after_chapters s' with
  | some GNode.integrate =>
    let r := exec_integrate o s'
    (GNode.write_chapters :: r.1, r.2)
  | some GNode.graphEnd => ([GNode.write_chapters], some s')
  | _ => ([GNode.write_chapters], none)

/-- Graph execution from the entry point `"analyze"`: the behaviour of
`graph.ainvoke` for the compiled graph, together with the trace of executed
nodes. -/
def exec_analyze (o : LLMOracle) (s : AutobiographyState) :
    List GNode × Option AutobiographyState :=
  let s' := analyze_node o.analyzeLLM s
  match route_after_analyze s' with
  | some GNode.write_chapters =>
    let r := exec_chapters o s'
    (GNode.analyze :: r.1, r.2)
  | some GNode.graphEnd => ([GNode.analyze], some s')
  | _ => ([GNode.analyze], none)

/-- `graph.ainvoke(initial_state)` of `run_autobiography_generation`. -/
def ainvoke (o : LLMOracle) (s : AutobiographyState) :
    List GNode × Option AutobiographyState :=
  exec_analyze o s

/-- The `initial_state` literal of `run_autobiography_generation`. -/
def initial_state (transcript : String) : AutobiographyState :=
  { transcript := transcript
    analysis := none
    childhood_chapter := none
    youth_chapter := none
    middle_age_chapter := none
    mature_chapter := none
    elderly_chapter := none
    final_autobiography := none
    current_step := "analyze"
    error := none }

/-- `run_autobiography_generation`: runs the graph on the initial state; if
`final_state.get("error")` is truthy it raises (modelled as `Except.error`
with the raised message), otherwise it returns
`final_state["final_autobiography"]` — which the Python code annotates as an
`AutobiographyResult` but which is `None` whenever that field was never set,
hence the `Option` in the returned value. -/
def run_autobiography_generation (o : LLMOracle) (transcript : String) :
    Except String (Option AutobiographyResult) :=
  match (ainvoke o (initial_state transcript)).2 with
  | none => Except.error "graph execution error"
  | some final =>
    if truthy final.error then
      Except.error ("자서전 생성 중 오류 발생: " ++ final.error.getD "")
    else
      Except.ok final.final_autobiography

/-! ## Large-file transcription (`AudioTranscriber._transcribe_large_file`) -/

/-- `_transcribe_large_file`: split the audio into chunks, transcribe every
chunk concurrently (`stt` is the speech-to-text oracle on a chunk's
boundaries, `order` the completion order of the gathered tasks), and join the
gathered per-chunk texts with a paragraph break in slot order.  A slot left
unfilled by an incomplete completion sequence reads as `""` (in the real
gather every slot is filled, see `gather_run_perm`). -/
def transcribe_large_file (durationMs : Nat) (stt : Nat × Nat → String)
    (order : List Nat) : String :=
  let chunks := splitAudio durationMs
  let results := gather_run (chunks.map stt) order
  String.intercalate "\n\n" (results.map (fun r => r.getD ""))

/-! ## Slot equivalence (failed branch vs explicit no-content) -/

/-- A period slot that carries no usable content for integration: either the
branch failed (`None` slot) or the model reported `has_content = False`. -/
def no_content_slot (c : Option LifeStorySection) : Prop :=
  c = none ∨ ∃ ch, c = some ch ∧ ch.has_content = false

/-- Two period slots the integration stage cannot distinguish: equal, or both
without usable content. -/
def slot_equiv (c₁ c₂ : Option LifeStorySection) : Prop :=
  c₁ = c₂ ∨ (no_content_slot c₁ ∧ no_content_slot c₂)

/-- The pipeline state after a successful analysis (result `a`) followed by
the chapter fan-out with agent setup succeeding: every slot holds its own
branch's outcome (`None` exactly for the failed branches), and the state has
advanced to `"integrate"` with no error. -/
def after_chapters (o : LLMOracle) (t : String) (a : AnalysisResult) :
    AutobiographyState :=
  { transcript := t
    analysis := some a
    childhood_chapter := (o.childhoodLLM t).toOption
    youth_chapter := (o.youthLLM t).toOption
    middle_age_chapter := (o.middleAgeLLM t).toOption
    mature_chapter := (o.matureLLM t).toOption
    elderly_chapter := (o.elderlyLLM t).toOption
    final_autobiography := none
    current_step := "integrate"
    error := none }

/-- The state returned by a successful `write_chapters_node` on an arbitrary
input state: each slot overwritten with its own branch's outcome, the step
advanced to `"integrate"`, everything else untouched. -/
def fanout_state (o : LLMOracle) (s : AutobiographyState) : AutobiographyState :=
  { s with
    childhood_chapter := (o.childhoodLLM s.transcript).toOption
    youth_chapter := (o.youthLLM s.transcript).toOption
    middle_age_chapter := (o.middleAgeLLM s.transcript).toOption
    mature_chapter := (o.matureLLM s.transcript).toOption
    elderly_chapter := (o.elderlyLLM s.transcript).toOption
    current_step := "integrate" }

/-! ## Concrete fixtures used by the witness theorems -/

/-- A sample extraction whose model reported no content for the period. -/
def sampleNoContent : LifeStorySection :=
  { period := "유년기"
    age_range := "0-12세"
    title := ""
    content := ""
    key_events := []
    emotions := []
    lessons_learned := none
    has_content := false }

/-- A sample extraction with content. -/
def sampleSection : LifeStorySection :=
  { period := "청년기"
    age_range := "13-29세"
    title := "봄"
    content := "이야기"
    key_events := ["입학"]
    emotions := ["설렘"]
    lessons_learned := some "배움"
    has_content := true }

/-- A sample analysis result. -/
def sampleAnalysis : AnalysisResult :=
  { author_name := "김철수"
    birth_year := some 1950
    current_age := some 75
    summary := "요약"
    detected_periods := ["유년기"]
    main_themes := ["성장"]}

/-- A sample final autobiography. -/
def sampleResult : AutobiographyResult :=
  { title := "나의 길"
    author_name := "김철수"
    prologue := "서문"
    chapters := [{ period := "유년기", title := "시작", content := "본문" }]
    epilogue := "맺음말"
    key_themes := ["가족"]
    life_lessons := ["감사"]}

/-- An oracle in which every remote call fails with a non-empty message. -/
def oFailAll : LLMOracle :=
  { analyzeLLM := fun _ => Except.error "analysis boom"
    agentSetup := Except.error "setup boom"
    childhoodLLM := fun _ => Except.error "b1"
    youthLLM := fun _ => Except.error "b2"
    middleAgeLLM := fun _ => Except.error "b3"
    matureLLM := fun _ => Except.error "b4"
    elderlyLLM := fun _ => Except.error "b5"
    integrateLLM := fun _ => Except.error "integration boom" }

/-- An oracle whose analysis call raises an exception with an empty `str()`
(as `raise ValueError()` would): the recorded error is the empty string,
which Python truthiness treats as falsy. -/
def oEmptyError : LLMOracle :=
  { oFailAll with analyzeLLM := fun _ => Except.error "" }

/-- An oracle in which every remote call succeeds. -/
def oAllOk : LLMOracle :=
  { analyzeLLM := fun _ => Except.ok sampleAnalysis
    agentSetup := Except.ok ()
    childhoodLLM := fun _ => Except.ok sampleNoContent
    youthLLM := fun _ => Except.ok sampleSection
    middleAgeLLM := fun _ => Except.ok sampleSection
    matureLLM := fun _ => Except.ok sampleSection
    elderlyLLM := fun _ => Except.ok sampleSection
    integrateLLM := fun _ => Except.ok sampleResult }

end Autobio

/-! ## Claims C6, C7, C8 -/

/-- C6: splitting a 1,260,000 ms audio with the class constants
`maxChunkMs = 600000`, `overlapMs = 5000` produces exactly the three chunks
`[0,600000)`, `[595000,1195000)`, `[1190000,1260000)`: each window steps
forward by the maximum chunk length clipped to the total duration, each
successive start is the previous end minus the overlap, and the trailing tail
is handled by the stop-early rule. -/
theorem Autobio.split_21_minutes :
    Autobio.splitAudio 1260000 =
      [(0, 600000), (595000, 1195000), (1190000, 1260000)] := by
  decide

/-- C7: for every audio whose duration is at most the maximum chunk duration,
`_split_audio` returns exactly one chunk spanning the whole duration. -/
theorem Autobio.split_short_audio_single_chunk (durationMs : Nat)
    (h : durationMs ≤ Autobio.MAX_CHUNK_DURATION_MS) :
    Autobio.splitAudio durationMs = [(0, durationMs)] := by
  simp [Autobio.splitAudio, h]

/-- Witness for C7 at the concrete duration 300000 ms. -/
theorem Autobio.split_short_audio_single_chunk_witness :
    Autobio.splitAudio 300000 = [(0, 300000)] :=
  Autobio.split_short_audio_single_chunk 300000 (by decide)

/-- C8: the chunks returned by `_split_audio` do not always cover the whole
audio: at `durationMs = 602000` (which exceeds the 600000 ms maximum chunk
duration) the stop-early rule makes the single emitted chunk end at 600000,
strictly before the end of the audio, so the trailing 2000 ms
(at most `OVERLAP_MS`) belong to no chunk and are never transcribed. -/
theorem Autobio.split_uncovered_tail :
    Autobio.MAX_CHUNK_DURATION_MS < 602000 ∧
    Autobio.splitAudio 602000 = [(0, 600000)] ∧
    600000 < 602000 ∧
    602000 - 600000 ≤ Autobio.OVERLAP_MS := by
  decide

/-! ## Ordering guarantee of the fan-out gather -/

/-- A completion event preserves the length of the slot array. -/
theorem Autobio.gather_step_length {α : Type} (tasks : List α)
    (acc : List (Option α)) (i : Nat) :
    (Autobio.gather_step tasks acc i).length = acc.length := by
  unfold Autobio.gather_step
  cases tasks[i]? <;> simp

/-- Slot contents after a sequence of completion events: the slot of every
task that has completed holds that task's own result, and an untouched slot
keeps its initial value. -/
theorem Autobio.gather_foldl_getElem? {α : Type} (tasks : List α)
    (order : List Nat) :
    ∀ acc : List (Option α), acc.length = tasks.length → ∀ k : Nat,
      (order.foldl (Autobio.gather_step tasks) acc)[k]? =
        if k ∈ order ∧ k < tasks.length then (tasks[k]?).map some
        else acc[k]? := by
  induction order with
  | nil =>
    intro acc hacc k
    simp
  | cons i rest ih =>
    intro acc hacc k
    rw [List.foldl_cons,
      ih _ (by rw [Autobio.gather_step_length, hacc]) k]
    by_cases hk : k ∈ rest ∧ k < tasks.length
    · rw [if_pos hk, if_pos ⟨List.mem_cons_of_mem i hk.1, hk.2⟩]
    · rw [if_neg hk]
      by_cases hki : k = i
      · subst hki
        by_cases hlt : k < tasks.length
        · rw [if_pos ⟨List.mem_cons_self k rest, hlt⟩]
          unfold Autobio.gather_step
          rw [List.getElem?_eq_getElem hlt,
            List.getElem?_set_self (by rw [hacc]; exact hlt)]
          rfl
        · have hnone : tasks[k]? = none :=
            List.getElem?_eq_none (Nat.le_of_not_lt hlt)
          unfold Autobio.gather_step
          rw [hnone, if_neg (fun hcon => hlt hcon.2)]
      · have hmem : ¬(k ∈ i :: rest ∧ k < tasks.length) := by
          intro hcon
          rcases List.mem_cons.mp hcon.1 with heq | hrest
          · exact hki heq
          · exact hk ⟨hrest, hcon.2⟩
        rw [if_neg hmem]
        unfold Autobio.gather_step
        cases htask : tasks[i]? with
        | none => rfl
        | some v => rw [List.getElem?_set_ne (fun hne => hki hne.symm)]

/-- The gathered result array is the task list in task order (each slot
filled with its own task's result), for every completion order that completes
each task: concurrency cannot scramble which result belongs to which slot. -/
theorem Autobio.gather_run_perm {α : Type} (tasks : List α) (order : List Nat)
    (h : order.Perm (List.range tasks.length)) :
    Autobio.gather_run tasks order = tasks.map some := by
  apply List.ext_getElem?
  intro k
  unfold Autobio.gather_run
  rw [Autobio.gather_foldl_getElem? tasks order _
      (List.length_replicate tasks.length none) k,
    List.getElem?_map]
  by_cases hk : k < tasks.length
  · have hmem : k ∈ order := h.mem_iff.mpr (List.mem_range.mpr hk)
    rw [if_pos ⟨hmem, hk⟩]
  · rw [if_neg (fun hcon => hk hcon.2), List.getElem?_replicate, if_neg hk,
      List.getElem?_eq_none (Nat.le_of_not_lt hk)]
    rfl

/-! ## Claim C9 -/

/-- C9: for every multi-chunk transcription, the final transcript equals the
per-chunk transcription texts joined by a paragraph break in chunk order —
the gathered slot array holds each chunk's own transcription at that chunk's
position for every completion order, so the joined text is the ordered
concatenation regardless of which chunk finishes first. -/
theorem Autobio.transcript_joined_in_chunk_order (durationMs : Nat)
    (stt : Nat × Nat → String) (order : List Nat)
    (h : order.Perm (List.range (Autobio.splitAudio durationMs).length)) :
    Autobio.gather_run ((Autobio.splitAudio durationMs).map stt) order =
      ((Autobio.splitAudio durationMs).map stt).map some ∧
    Autobio.transcribe_large_file durationMs stt order =
      String.intercalate "\n\n" ((Autobio.splitAudio durationMs).map stt) := by
  have hlen : ((Autobio.splitAudio durationMs).map stt).length
      = (Autobio.splitAudio durationMs).length := List.length_map _ _
  have hg := Autobio.gather_run_perm ((Autobio.splitAudio durationMs).map stt)
    order (by rw [hlen]; exact h)
  refine ⟨hg, ?_⟩
  simp only [Autobio.transcribe_large_file]
  rw [hg, List.map_map, List.map_map]
  rfl

/-- Witness for C9: the 21-minute audio of C6 with completion order
`[2, 0, 1]` (chunk 2 finishing before chunks 0 and 1). -/
theorem Autobio.transcript_joined_in_chunk_order_witness :
    Autobio.gather_run
        ((Autobio.splitAudio 1260000).map (fun p => toString p.1)) [2, 0, 1] =
      ((Autobio.splitAudio 1260000).map (fun p => toString p.1)).map some ∧
    Autobio.transcribe_large_file 1260000 (fun p => toString p.1) [2, 0, 1] =
      String.intercalate "\n\n"
        ((Autobio.splitAudio 1260000).map (fun p => toString p.1)) :=
  Autobio.transcript_joined_in_chunk_order 1260000
    (fun p => toString p.1) [2, 0, 1] (by decide)

/-! ## Claim C2 -/

/-- C2: the period-extraction fan-out never fails as a whole.  For every
state and every combination of branch outcomes: the gathered results land in
their own slots for every completion order; each branch that raised is
recorded as `None` in its slot (`Except.toOption`) while successful branches
are stored unchanged; all other state fields (including `error`) are
untouched; and the node advances `current_step` to `"integrate"` — even when
all five branches fail. -/
theorem Autobio.write_chapters_branch_isolation (s : Autobio.AutobiographyState)
    (ag1 ag2 ag3 ag4 ag5 : String → Except String Autobio.LifeStorySection)
    (order : List Nat) (h : order.Perm (List.range 5)) :
    Autobio.gather_run
        [ag1 s.transcript, ag2 s.transcript, ag3 s.transcript,
         ag4 s.transcript, ag5 s.transcript] order =
      [some (ag1 s.transcript), some (ag2 s.transcript),
       some (ag3 s.transcript), some (ag4 s.transcript),
       some (ag5 s.transcript)] ∧
    Autobio.write_chapters_node (Except.ok ())
        [ag1 s.transcript, ag2 s.transcript, ag3 s.transcript,
         ag4 s.transcript, ag5 s.transcript] s =
      { s with
        childhood_chapter := (ag1 s.transcript).toOption
        youth_chapter := (ag2 s.transcript).toOption
        middle_age_chapter := (ag3 s.transcript).toOption
        mature_chapter := (ag4 s.transcript).toOption
        elderly_chapter := (ag5 s.transcript).toOption
        current_step := "integrate" } := by
  constructor
  · exact Autobio.gather_run_perm _ order h
  · rfl

/-- Witness for C2: branches 1, 3, 4 fail and branches 2, 5 succeed, with
completion order `[4, 2, 0, 1, 3]`. -/
theorem Autobio.write_chapters_branch_isolation_witness :
    Autobio.gather_run
        [(Except.error "b1" : Except String Autobio.LifeStorySection),
         Except.ok Autobio.sampleSection, Except.error "b3",
         Except.error "b4", Except.ok Autobio.sampleSection]
        [4, 2, 0, 1, 3] =
      [some (Except.error "b1"), some (Except.ok Autobio.sampleSection),
       some (Except.error "b3"), some (Except.error "b4"),
       some (Except.ok Autobio.sampleSection)] ∧
    Autobio.write_chapters_node (Except.ok ())
        [(Except.error "b1" : Except String Autobio.LifeStorySection),
         Except.ok Autobio.sampleSection, Except.error "b3",
         Except.error "b4", Except.ok Autobio.sampleSection]
        (Autobio.initial_state "t") =
      { Autobio.initial_state "t" with
        childhood_chapter := none
        youth_chapter := some Autobio.sampleSection
        middle_age_chapter := none
        mature_chapter := none
        elderly_chapter := some Autobio.sampleSection
        current_step := "integrate" } :=
  Autobio.write_chapters_branch_isolation (Autobio.initial_state "t")
    (fun _ => Except.error "b1") (fun _ => Except.ok Autobio.sampleSection)
    (fun _ => Except.error "b3") (fun _ => Except.error "b4")
    (fun _ => Except.ok Autobio.sampleSection)
    [4, 2, 0, 1, 3] (by decide)

/-! ## Claim C1 -/

/-- C1: for every pipeline state reaching integration, the `chapters_info`
part of the integration input represents exactly five period slots, in the
fixed canonical order childhood (유년기), youth (청년기), middle-age (중년기),
mature (장년기), elderly (노년기) — regardless of which extraction branches
succeeded or failed — and a slot that is `None` or has `has_content = False`
contributes the explicit "정보가 부족합니다" placeholder entry in its
canonical position. -/
theorem Autobio.integration_input_five_canonical_slots
    (s : Autobio.AutobiographyState) :
    Autobio.chapters_info s =
      [Autobio.chapter_entry "유년기" "0-12세" s.childhood_chapter,
       Autobio.chapter_entry "청년기" "13-29세" s.youth_chapter,
       Autobio.chapter_entry "중년기" "30-49세" s.middle_age_chapter,
       Autobio.chapter_entry "장년기" "50-64세" s.mature_chapter,
       Autobio.chapter_entry "노년기" "65세 이상" s.elderly_chapter] ∧
    (Autobio.chapters_info s).length = 5 ∧
    (∀ p a, Autobio.chapter_entry p a none = Autobio.placeholder_entry p a) ∧
    (∀ p a ch, ch.has_content = false →
      Autobio.chapter_entry p a (some ch) = Autobio.placeholder_entry p a) := by
  refine ⟨rfl, rfl, fun p a => rfl, fun p a ch hch => ?_⟩
  simp [Autobio.chapter_entry, hch]

/-- Witness for C1 at a concrete state and a concrete no-content section. -/
theorem Autobio.integration_input_five_canonical_slots_witness :
    Autobio.chapter_entry "유년기" "0-12세" (some Autobio.sampleNoContent) =
      Autobio.placeholder_entry "유년기" "0-12세" :=
  (Autobio.integration_input_five_canonical_slots
    (Autobio.initial_state "t")).2.2.2 "유년기" "0-12세"
    Autobio.sampleNoContent rfl

/-! ## Claim C10 -/

/-- A slot without usable content always renders as the placeholder entry. -/
theorem Autobio.chapter_entry_of_no_content (p a : String)
    {c : Option Autobio.LifeStorySection} (h : Autobio.no_content_slot c) :
    Autobio.chapter_entry p a c = Autobio.placeholder_entry p a := by
  rcases h with rfl | ⟨ch, rfl, hch⟩
  · rfl
  · simp [Autobio.chapter_entry, hch]

/-- Equivalent slots render identically. -/
theorem Autobio.chapter_entry_congr (p a : String)
    {c₁ c₂ : Option Autobio.LifeStorySection} (h : Autobio.slot_equiv c₁ c₂) :
    Autobio.chapter_entry p a c₁ = Autobio.chapter_entry p a c₂ := by
  rcases h with rfl | ⟨h1, h2⟩
  · rfl
  · rw [Autobio.chapter_entry_of_no_content p a h1,
      Autobio.chapter_entry_of_no_content p a h2]

/-- C10: a period whose extraction branch failed (a `None` slot) is
indistinguishable, in the integration input and hence in the final result,
from a period the model explicitly reported as `has_content = False`: for any
two states whose five slots agree up to that conflation, every placeholder
entry, the whole `chapters_info` list, the whole integration input, and the
final autobiography produced by the integration step are identical — no flag
distinguishes the two causes. -/
theorem Autobio.failed_branch_indistinguishable_from_no_content
    (s₁ s₂ : Autobio.AutobiographyState)
    (h1 : Autobio.slot_equiv s₁.childhood_chapter s₂.childhood_chapter)
    (h2 : Autobio.slot_equiv s₁.youth_chapter s₂.youth_chapter)
    (h3 : Autobio.slot_equiv s₁.middle_age_chapter s₂.middle_age_chapter)
    (h4 : Autobio.slot_equiv s₁.mature_chapter s₂.mature_chapter)
    (h5 : Autobio.slot_equiv s₁.elderly_chapter s₂.elderly_chapter) :
    Autobio.chapters_info s₁ = Autobio.chapters_info s₂ ∧
    (∀ a, Autobio.integration_input a s₁ = Autobio.integration_input a s₂) ∧
    (∀ llm : String → Except String Autobio.AutobiographyResult,
      s₁.analysis = s₂.analysis →
      s₁.final_autobiography = s₂.final_autobiography →
      (Autobio.integrate_node llm s₁).final_autobiography =
        (Autobio.integrate_node llm s₂).final_autobiography) := by
  have hinfo : Autobio.chapters_info s₁ = Autobio.chapters_info s₂ := by
    unfold Autobio.chapters_info Autobio.chapter_data
    simp only [List.map_cons, List.map_nil]
    rw [Autobio.chapter_entry_congr _ _ h1, Autobio.chapter_entry_congr _ _ h2,
      Autobio.chapter_entry_congr _ _ h3, Autobio.chapter_entry_congr _ _ h4,
      Autobio.chapter_entry_congr _ _ h5]
  have hinput : ∀ a, Autobio.integration_input a s₁ =
      Autobio.integration_input a s₂ := by
    intro a
    unfold Autobio.integration_input
    rw [hinfo]
  refine ⟨hinfo, hinput, fun llm hA hF => ?_⟩
  cases hsa : s₂.analysis with
  | none =>
    have h1a : s₁.analysis = none := hA.trans hsa
    simp only [Autobio.integrate_node, h1a, hsa]
    exact hF
  | some a =>
    have h1a : s₁.analysis = some a := hA.trans hsa
    simp only [Autobio.integrate_node, h1a, hsa]
    rw [hinput a]
    cases llm (Autobio.integration_input a s₂) with
    | ok r => rfl
    | error e => exact hF

/-- Witness for C10: a state whose childhood branch failed versus the same
state with an explicit no-content childhood extraction. -/
theorem Autobio.failed_branch_indistinguishable_from_no_content_witness :
    Autobio.chapters_info (Autobio.initial_state "t") =
      Autobio.chapters_info
        { Autobio.initial_state "t" with
          childhood_chapter := some Autobio.sampleNoContent } :=
  (Autobio.failed_branch_indistinguishable_from_no_content
    (Autobio.initial_state "t")
    { Autobio.initial_state "t" with
      childhood_chapter := some Autobio.sampleNoContent }
    (Or.inr ⟨Or.inl rfl, Or.inr ⟨Autobio.sampleNoContent, rfl, rfl⟩⟩)
    (Or.inl rfl) (Or.inl rfl) (Or.inl rfl) (Or.inl rfl)).1

/-! ## Claim C5 -/

/-- C5: the three step functions are total functions on states — the driver
loop only ever observes a returned state, never an exception — and every
failure that reaches a step's boundary (`try`/`except` handler) is translated
into a returned state with `error` set and `current_step = "error"`: a failed
analyzer call, a failed agent setup in the fan-out node, a failed integrator
call, and the `AttributeError` of integrating without an analysis.  On every
input each node returns a state whose `current_step` is either its advancing
value or `"error"`. -/
theorem Autobio.step_functions_catch_failures (o : Autobio.LLMOracle)
    (s : Autobio.AutobiographyState) :
    (∀ e, o.analyzeLLM s.transcript = Except.error e →
      Autobio.analyze_node o.analyzeLLM s =
        { s with error := some e, current_step := "error" }) ∧
    (∀ e, o.agentSetup = Except.error e →
      ∀ results, Autobio.write_chapters_node o.agentSetup results s =
        { s with error := some e, current_step := "error" }) ∧
    (∀ a e, s.analysis = some a →
      o.integrateLLM (Autobio.integration_input a s) = Except.error e →
      Autobio.integrate_node o.integrateLLM s =
        { s with error := some e, current_step := "error" }) ∧
    (s.analysis = none →
      Autobio.integrate_node o.integrateLLM s =
        { s with error := some Autobio.noneAnalysisMsg,
                 current_step := "error" }) ∧
    ((Autobio.analyze_node o.analyzeLLM s).current_step = "chapters" ∨
      (Autobio.analyze_node o.analyzeLLM s).current_step = "error") ∧
    (∀ results,
      (Autobio.write_chapters_node o.agentSetup results s).current_step =
          "integrate" ∨
      (Autobio.write_chapters_node o.agentSetup results s).current_step =
          "error") ∧
    ((Autobio.integrate_node o.integrateLLM s).current_step = "complete" ∨
      (Autobio.integrate_node o.integrateLLM s).current_step = "error") := by
  refine ⟨fun e he => ?_, fun e he results => ?_, fun a e ha he => ?_,
    fun ha => ?_, ?_, fun results => ?_, ?_⟩
  · simp [Autobio.analyze_node, he]
  · simp [Autobio.write_chapters_node, he]
  · simp [Autobio.integrate_node, ha, he]
  · simp [Autobio.integrate_node, ha]
  · unfold Autobio.analyze_node
    cases o.analyzeLLM s.transcript <;> simp
  · unfold Autobio.write_chapters_node
    cases o.agentSetup <;> simp
  · rcases hsa : s.analysis with _ | a
    · simp [Autobio.integrate_node, hsa]
    · rcases h2 : o.integrateLLM (Autobio.integration_input a s) with e2 | r <;>
        simp [Autobio.integrate_node, hsa, h2]

/-- Witness for C5: every hypothesis discharged at the all-failing oracle. -/
theorem Autobio.step_functions_catch_failures_witness :
    Autobio.analyze_node Autobio.oFailAll.analyzeLLM (Autobio.initial_state "t") =
      { Autobio.initial_state "t" with
        error := some "analysis boom", current_step := "error" } :=
  (Autobio.step_functions_catch_failures Autobio.oFailAll
    (Autobio.initial_state "t")).1 "analysis boom" rfl

/-! ## Claim C3 -/

/-- If a state's `current_step` is `"error"`, `should_continue` routes to
`"error"` whether or not the recorded error message is truthy. -/
theorem Autobio.should_continue_error_step (s : Autobio.AutobiographyState)
    (hstep : s.current_step = "error") :
    Autobio.should_continue s = "error" := by
  unfold Autobio.should_continue
  rw [hstep]
  exact ite_self _

/-- An error-step state is routed from `analyze` straight to `END`. -/
theorem Autobio.route_after_analyze_error_step (s : Autobio.AutobiographyState)
    (hstep : s.current_step = "error") :
    Autobio.route_after_analyze s = some Autobio.GNode.graphEnd := by
  unfold Autobio.route_after_analyze
  rw [Autobio.should_continue_error_step s hstep]
  rfl

/-- C3: if the analysis call fails (`error` gets set by `analyze_node`), the
fan-out step is never invoked — the compiled graph executes only the
`analyze` node and transitions directly to the terminal error state, whose
recorded failure is exactly the analysis exception's message (a single
`AnalysisError`-rooted failure, no retry of the analysis). -/
theorem Autobio.analysis_failure_skips_fanout (o : Autobio.LLMOracle)
    (s : Autobio.AutobiographyState) (e : String)
    (h : o.analyzeLLM s.transcript = Except.error e) :
    Autobio.ainvoke o s =
      ([Autobio.GNode.analyze],
        some { s with error := some e, current_step := "error" }) ∧
    Autobio.GNode.write_chapters ∉ (Autobio.ainvoke o s).1 := by
  have hnode : Autobio.analyze_node o.analyzeLLM s =
      { s with error := some e, current_step := "error" } := by
    simp [Autobio.analyze_node, h]
  have hroute := Autobio.route_after_analyze_error_step
    { s with error := some e, current_step := "error" } rfl
  have hrun : Autobio.ainvoke o s =
      ([Autobio.GNode.analyze],
        some { s with error := some e, current_step := "error" }) := by
    simp only [Autobio.ainvoke, Autobio.exec_analyze, hnode, hroute]
  refine ⟨hrun, ?_⟩
  rw [hrun]
  simp

/-- Witness for C3 at the all-failing oracle. -/
theorem Autobio.analysis_failure_skips_fanout_witness :
    Autobio.ainvoke Autobio.oFailAll (Autobio.initial_state "t") =
      ([Autobio.GNode.analyze],
        some { Autobio.initial_state "t" with
          error := some "analysis boom", current_step := "error" }) ∧
    Autobio.GNode.write_chapters ∉
      (Autobio.ainvoke Autobio.oFailAll (Autobio.initial_state "t")).1 :=
  Autobio.analysis_failure_skips_fanout Autobio.oFailAll
    (Autobio.initial_state "t") "analysis boom" rfl


/-! ## Claim C4 -/

/-- An error-step state is routed from `write_chapters` straight to `END`. -/
theorem Autobio.route_after_chapters_error_step (s : Autobio.AutobiographyState)
    (hstep : s.current_step = "error") :
    Autobio.route_after_chapters s = some Autobio.GNode.graphEnd := by
  unfold Autobio.route_after_chapters
  rw [Autobio.should_continue_error_step s hstep]
  rfl

/-- An error-step state is routed from `integrate` straight to `END`. -/
theorem Autobio.route_after_integrate_error_step (s : Autobio.AutobiographyState)
    (hstep : s.current_step = "error") :
    Autobio.route_after_integrate s = some Autobio.GNode.graphEnd := by
  unfold Autobio.route_after_integrate
  rw [Autobio.should_continue_error_step s hstep]
  rfl

/-- Execution from `analyze` when the analyzer call fails. -/
theorem Autobio.exec_analyze_error (o : Autobio.LLMOracle)
    (s : Autobio.AutobiographyState) (e : String)
    (hA : o.analyzeLLM s.transcript = Except.error e) :
    Autobio.exec_analyze o s =
      ([Autobio.GNode.analyze],
        some { s with error := some e, current_step := "error" }) := by
  have hnode : Autobio.analyze_node o.analyzeLLM s =
      { s with error := some e, current_step := "error" } := by
    unfold Autobio.analyze_node
    rw [hA]
  have hroute := Autobio.route_after_analyze_error_step
    { s with error := some e, current_step := "error" } rfl
  simp only [Autobio.exec_analyze, hnode, hroute]

/-- Execution from `analyze` when the analyzer call succeeds on an
error-free state: control passes to the fan-out node. -/
theorem Autobio.exec_analyze_ok (o : Autobio.LLMOracle)
    (s : Autobio.AutobiographyState) (a : Autobio.AnalysisResult)
    (hA : o.analyzeLLM s.transcript = Except.ok a) (he : s.error = none) :
    Autobio.exec_analyze o s =
      (Autobio.GNode.analyze ::
        (Autobio.exec_chapters o
          { s with analysis := some a, current_step := "chapters" }).1,
        (Autobio.exec_chapters o
          { s with analysis := some a, current_step := "chapters" }).2) := by
  have hnode : Autobio.analyze_node o.analyzeLLM s =
      { s with analysis := some a, current_step := "chapters" } := by
    unfold Autobio.analyze_node
    rw [hA]
  have hroute : Autobio.route_after_analyze
      { s with analysis := some a, current_step := "chapters" } =
      some Autobio.GNode.write_chapters := by
    unfold Autobio.route_after_analyze Autobio.should_continue
    simp [he, Autobio.truthy]
  simp only [Autobio.exec_analyze, hnode, hroute]

/-- Execution from `write_chapters` when the agent setup fails. -/
theorem Autobio.exec_chapters_setup_error (o : Autobio.LLMOracle)
    (s : Autobio.AutobiographyState) (e : String)
    (hS : o.agentSetup = Except.error e) :
    Autobio.exec_chapters o s =
      ([Autobio.GNode.write_chapters],
        some { s with error := some e, current_step := "error" }) := by
  have hwc : Autobio.write_chapters_node o.agentSetup
      (Autobio.gather_chapter_results o s.transcript) s =
      { s with error := some e, current_step := "error" } := by
    unfold Autobio.write_chapters_node
    rw [hS]
  have hroute := Autobio.route_after_chapters_error_step
    { s with error := some e, current_step := "error" } rfl
  simp only [Autobio.exec_chapters, hwc, hroute]

/-- Execution from `write_chapters` when the agent setup succeeds on an
error-free state: control passes to the integration node. -/
theorem Autobio.exec_chapters_setup_ok (o : Autobio.LLMOracle)
    (s : Autobio.AutobiographyState)
    (hS : o.agentSetup = Except.ok ()) (he : s.error = none) :
    Autobio.exec_chapters o s =
      (Autobio.GNode.write_chapters ::
        (Autobio.exec_integrate o (Autobio.fanout_state o s)).1,
        (Autobio.exec_integrate o (Autobio.fanout_state o s)).2) := by
  have hwc : Autobio.write_chapters_node o.agentSetup
      (Autobio.gather_chapter_results o s.transcript) s =
      Autobio.fanout_state o s := by
    rw [hS]
    rfl
  have hroute : Autobio.route_after_chapters (Autobio.fanout_state o s) =
      some Autobio.GNode.integrate := by
    unfold Autobio.route_after_chapters Autobio.should_continue
      Autobio.fanout_state
    simp [he, Autobio.truthy]
  simp only [Autobio.exec_chapters, hwc, hroute]

/-- Execution from `integrate` when the integrator call fails. -/
theorem Autobio.exec_integrate_error (o : Autobio.LLMOracle)
    (s : Autobio.AutobiographyState) (a : Autobio.AnalysisResult) (e : String)
    (ha : s.analysis = some a)
    (hI : o.integrateLLM (Autobio.integration_input a s) = Except.error e) :
    Autobio.exec_integrate o s =
      ([Autobio.GNode.integrate],
        some { s with error := some e, current_step := "error" }) := by
  have hint : Autobio.integrate_node o.integrateLLM s =
      { s with error := some e, current_step := "error" } := by
    simp only [Autobio.integrate_node, ha, hI]
  have hroute := Autobio.route_after_integrate_error_step
    { s with error := some e, current_step := "error" } rfl
  simp only [Autobio.exec_integrate, hint, hroute]

/-- Execution from `integrate` when the integrator call succeeds on an
error-free state. -/
theorem Autobio.exec_integrate_ok (o : Autobio.LLMOracle)
    (s : Autobio.AutobiographyState) (a : Autobio.AnalysisResult)
    (r : Autobio.AutobiographyResult)
    (ha : s.analysis = some a) (he : s.error = none)
    (hI : o.integrateLLM (Autobio.integration_input a s) = Except.ok r) :
    Autobio.exec_integrate o s =
      ([Autobio.GNode.integrate],
        some { s with
          final_autobiography := some r, current_step := "complete" }) := by
  have hint : Autobio.integrate_node o.integrateLLM s =
      { s with final_autobiography := some r, current_step := "complete" } := by
    simp only [Autobio.integrate_node, ha, hI]
  have hroute : Autobio.route_after_integrate
      { s with final_autobiography := some r, current_step := "complete" } =
      some Autobio.GNode.graphEnd := by
    unfold Autobio.route_after_integrate Autobio.should_continue
    simp [he, Autobio.truthy]
  simp only [Autobio.exec_integrate, hint, hroute]

/-- Every terminal state of a full run from the initial state is one of the
four path outcomes: analysis failed, agent setup failed, integration failed,
or full success. -/
theorem Autobio.ainvoke_terminal_cases (o : Autobio.LLMOracle) (t : String)
    (final : Autobio.AutobiographyState)
    (hfin : (Autobio.ainvoke o (Autobio.initial_state t)).2 = some final) :
    (∃ e, final = { Autobio.initial_state t with
      error := some e, current_step := "error" }) ∨
    (∃ a e, final = { Autobio.initial_state t with
      analysis := some a, error := some e, current_step := "error" }) ∨
    (∃ a e, final = { Autobio.after_chapters o t a with
      error := some e, current_step := "error" }) ∨
    (∃ a r, final = { Autobio.after_chapters o t a with
      final_autobiography := some r, current_step := "complete" }) := by
  unfold Autobio.ainvoke at hfin
  rcases hA : o.analyzeLLM t with e0 | a
  · rw [Autobio.exec_analyze_error o (Autobio.initial_state t) e0 hA] at hfin
    exact Or.inl ⟨e0, by simpa using hfin.symm⟩
  · rw [Autobio.exec_analyze_ok o (Autobio.initial_state t) a hA rfl] at hfin
    rcases hS : o.agentSetup with e0 | u
    · rw [Autobio.exec_chapters_setup_error o
        { Autobio.initial_state t with
          analysis := some a, current_step := "chapters" } e0 hS] at hfin
      exact Or.inr (Or.inl ⟨a, e0, by simpa using hfin.symm⟩)
    · cases u
      rw [Autobio.exec_chapters_setup_ok o
        { Autobio.initial_state t with
          analysis := some a, current_step := "chapters" } hS rfl] at hfin
      have hfs : Autobio.fanout_state o
          { Autobio.initial_state t with
            analysis := some a, current_step := "chapters" } =
          Autobio.after_chapters o t a := rfl
      rw [hfs] at hfin
      rcases hI : o.integrateLLM
          (Autobio.integration_input a (Autobio.after_chapters o t a))
        with e0 | r
      · rw [Autobio.exec_integrate_error o (Autobio.after_chapters o t a)
          a e0 rfl hI] at hfin
        exact Or.inr (Or.inr (Or.inl ⟨a, e0, by simpa using hfin.symm⟩))
      · rw [Autobio.exec_integrate_ok o (Autobio.after_chapters o t a)
          a r rfl rfl hI] at hfin
        exact Or.inr (Or.inr (Or.inr ⟨a, r, by simpa using hfin.symm⟩))

/-- `run_autobiography_generation` as a function of the graph's final
state. -/
theorem Autobio.run_eq_of_ainvoke (o : Autobio.LLMOracle) (t : String)
    (final : Autobio.AutobiographyState)
    (hfin : (Autobio.ainvoke o (Autobio.initial_state t)).2 = some final) :
    Autobio.run_autobiography_generation o t =
      if Autobio.truthy final.error then
        Except.error ("자서전 생성 중 오류 발생: " ++ final.error.getD "")
      else Except.ok final.final_autobiography := by
  unfold Autobio.run_autobiography_generation
  rw [hfin]

/-- C4, counterexample: an analysis exception whose `str()` is empty.  The
final state records the error (`error = some "" ≠ none`), yet
`run_autobiography_generation` does not raise — the truthiness check
`if final_state.get("error")` treats the empty string as falsy — and the run
returns the `final_autobiography` field, which is `None`. -/
theorem Autobio.error_set_but_run_returns :
    (Autobio.ainvoke Autobio.oEmptyError (Autobio.initial_state "t")).2 =
      some { Autobio.initial_state "t" with
        error := some "", current_step := "error" } ∧
    ({ Autobio.initial_state "t" with
        error := some "", current_step := "error" } :
      Autobio.AutobiographyState).error ≠ none ∧
    Autobio.run_autobiography_generation Autobio.oEmptyError "t" =
      Except.ok none := by
  refine ⟨rfl, by simp, rfl⟩

/-- C4 (amended): whenever the final state carries a NON-EMPTY error message
(at any step), `run_autobiography_generation` raises a failure instead of
returning a result, and the state's `final_autobiography` field is still
null; conversely a returned non-null result comes from a state whose step
reached `"complete"` with `error` null.  (The amendment is forced by the
counterexample: an error recorded as the empty string passes the truthiness
check, so the run returns `None` instead of raising.) -/
theorem Autobio.result_only_from_complete (o : Autobio.LLMOracle) (t : String)
    (final : Autobio.AutobiographyState)
    (hfin : (Autobio.ainvoke o (Autobio.initial_state t)).2 = some final) :
    (∀ e, final.error = some e → e ≠ "" →
      Autobio.run_autobiography_generation o t =
        Except.error ("자서전 생성 중 오류 발생: " ++ e) ∧
      final.final_autobiography = none) ∧
    (∀ r, Autobio.run_autobiography_generation o t = Except.ok (some r) →
      final.current_step = "complete" ∧ final.error = none ∧
      final.final_autobiography = some r) := by
  have hrun := Autobio.run_eq_of_ainvoke o t final hfin
  have hcases := Autobio.ainvoke_terminal_cases o t final hfin
  constructor
  · intro e he hne
    have hb : (e == "") = false := by simpa using hne
    constructor
    · rw [hrun, he]
      simp [Autobio.truthy, hb]
    · rcases hcases with ⟨e1, rfl⟩ | ⟨a, e1, rfl⟩ | ⟨a, e1, rfl⟩ | ⟨a, r, rfl⟩
      · rfl
      · rfl
      · rfl
      · exact absurd he (by simp [Autobio.after_chapters])
  · intro r hr
    rw [hrun] at hr
    rcases hcases with ⟨e1, rfl⟩ | ⟨a, e1, rfl⟩ | ⟨a, e1, rfl⟩ | ⟨a, r1, rfl⟩
    · exfalso
      by_cases he1 : e1 = ""
      · subst he1
        simp [Autobio.truthy, Autobio.initial_state] at hr
      · have hb : (e1 == "") = false := by simpa using he1
        simp [Autobio.truthy, hb] at hr
    · exfalso
      by_cases he1 : e1 = ""
      · subst he1
        simp [Autobio.truthy, Autobio.initial_state] at hr
      · have hb : (e1 == "") = false := by simpa using he1
        simp [Autobio.truthy, hb] at hr
    · exfalso
      by_cases he1 : e1 = ""
      · subst he1
        simp [Autobio.truthy, Autobio.after_chapters] at hr
      · have hb : (e1 == "") = false := by simpa using he1
        simp [Autobio.truthy, hb] at hr
    · simp [Autobio.truthy, Autobio.after_chapters] at hr
      subst hr
      refine ⟨rfl, rfl, rfl⟩

/-- Witness for C4 (amended) at the all-succeeding oracle: the returned
result comes from the `"complete"`, error-free terminal state. -/
theorem Autobio.result_only_from_complete_witness :
    ({ Autobio.after_chapters Autobio.oAllOk "t" Autobio.sampleAnalysis with
        final_autobiography := some Autobio.sampleResult,
        current_step := "complete" } :
      Autobio.AutobiographyState).current_step = "complete" ∧
    ({ Autobio.after_chapters Autobio.oAllOk "t" Autobio.sampleAnalysis with
        final_autobiography := some Autobio.sampleResult,
        current_step := "complete" } :
      Autobio.AutobiographyState).error = none ∧
    ({ Autobio.after_chapters Autobio.oAllOk "t" Autobio.sampleAnalysis with
        final_autobiography := some Autobio.sampleResult,
        current_step := "complete" } :
      Autobio.AutobiographyState).final_autobiography =
      some Autobio.sampleResult :=
  (Autobio.result_only_from_complete Autobio.oAllOk "t"
    { Autobio.after_chapters Autobio.oAllOk "t" Autobio.sampleAnalysis with
      final_autobiography := some Autobio.sampleResult,
      current_step := "complete" } rfl).2 Autobio.sampleResult rfl
